import Mathlib

/-!
Shallow embedding of the Product-Importer browser client
(`src/unnamed/part_000` — CSV upload, progress polling, product CRUD —
and `src/static/webhooks.js` — webhook CRUD).  DOM mutations and network
activity are made explicit: each handler is a pure function from its
inputs (form values, the sequence of server responses it will observe)
to a record or trace of the effects it performs.
-/

namespace ProductImporter

/-- A network request issued by the client (`fetch` call): HTTP method and URL. -/
structure Request where
  method : String
  url : String
deriving DecidableEq

/-- JavaScript `s.endsWith(t)`: `t` is a literal (case-sensitive) suffix of `s`. -/
def jsEndsWith (s t : String) : Bool :=
  decide (s.data.drop (s.data.length - t.data.length) = t.data)

/-- JavaScript `x || d` on an optional string field: `d` when the field is
absent or the empty string (both falsy), the field's value otherwise. -/
def jsOrStr (x : Option String) (d : String) : String :=
  match x with
  | none => d
  | some s => if s = "" then d else s

/-- JavaScript `x || d` on a number: `d` when the value is absent or `0`. -/
def jsOrNat (x : Nat) (d : Nat) : Nat :=
  if x = 0 then d else x

/-! ## Upload controller (`handleFiles`, `uploadCSV`) -/

/-- The DOM state touched by the upload section: status line text, progress
container visibility, progress bar width, retry button visibility, and the
`currentFile` module-level variable. -/
structure UploadUI where
  statusText : String
  progressVisible : Bool
  progressWidth : Nat
  retryVisible : Bool
  currentFile : Option String
deriving DecidableEq

/-- Result of running a handler: the new UI state plus the network requests issued. -/
structure HandleResult where
  ui : UploadUI
  requests : List Request
deriving DecidableEq

/-- The single multipart upload request issued by `uploadCSV`. -/
def uploadRequest : Request := ⟨"POST", "/upload"⟩

/-- `handleFiles` from `src/unnamed/part_000` lines 51–66, applied to the
name of `files[0]`: reject (status message, no request) unless the name ends
in `.csv`; otherwise reset the progress UI, record the file in `currentFile`
and call `uploadCSV`, which issues one POST to `/upload`. -/
def handleFiles (fileName : String) (ui : UploadUI) : HandleResult :=
  if ¬ jsEndsWith fileName ".csv" then
    { ui := { ui with statusText := "Please upload a valid CSV file." }, requests := [] }
  else
    { ui := { statusText := ""
              progressVisible := true
              progressWidth := 0
              retryVisible := false
              currentFile := some fileName }
      requests := [uploadRequest] }

/-- C1: `submit(f)` issues a network call iff `f.name` ends with `.csv`
(case-sensitive); otherwise zero calls and the validation message is shown. -/
theorem c1_upload_validation (fileName : String) (ui : UploadUI) :
    (handleFiles fileName ui).requests
      = (if jsEndsWith fileName ".csv" then [uploadRequest] else []) ∧
    (handleFiles fileName ui).ui.statusText
      = (if jsEndsWith fileName ".csv" then ""
         else "Please upload a valid CSV file.") := by
  unfold handleFiles
  by_cases h : jsEndsWith fileName ".csv" = true <;> simp [h]

/-! ## Progress poller (`pollProgress`) -/

/-- A parsed response body from `GET /progress/{task_id}`.  Fields the code
reads may each be absent (`undefined` in JS). -/
structure PollResponse where
  state : Option String
  progress : Option Nat
  status : Option String
deriving DecidableEq

/-- What one poll tick observes: either a transport/parse error
(the `.catch` path) or a parsed response. -/
inductive Tick where
  | err : Tick
  | ok : PollResponse → Tick
deriving DecidableEq

/-- Outcome of running the poll loop on a finite sequence of tick
observations: how many progress requests were issued (one per processed
tick), how many times `loadProducts()` was called, whether the loop was
stopped (`clearInterval`), and the final UI state. -/
structure PollOutcome where
  requests : Nat
  reloads : Nat
  stopped : Bool
  ui : UploadUI
deriving DecidableEq

/-- One tick of `pollProgress` (`src/unnamed/part_000` lines 87–113):
returns the updated UI, whether `clearInterval` ran, and the number of
`loadProducts()` calls made on this tick. -/
def pollTick (ui : UploadUI) (t : Tick) : UploadUI × Bool × Nat :=
  match t with
  | .err => ({ ui with statusText := "Error fetching progress.", retryVisible := true }, true, 0)
  | .ok d =>
    let percent := jsOrNat (d.progress.getD 0) 0
    let ui1 := { ui with progressWidth := percent
                         statusText := jsOrStr d.status "Processing..." }
    if d.state = some "SUCCESS" then
      ({ ui1 with statusText := "Import Complete!" }, true, 1)
    else if d.state = some "FAILURE" then
      ({ ui1 with statusText := "Failed: " ++ jsOrStr d.status "Error"
                  retryVisible := true }, true, 0)
    else
      (ui1, false, 0)

/-- Run `pollProgress` against a finite prefix of its stream of tick
observations: each processed tick corresponds to one `GET /progress/{id}`
request; processing stops as soon as a tick runs `clearInterval`. -/
def runPoll (ui : UploadUI) : List Tick → PollOutcome
  | [] => ⟨0, 0, false, ui⟩
  | t :: ts =>
    let r := pollTick ui t
    if r.2.1 then ⟨1, r.2.2, true, r.1⟩
    else
      let rest := runPoll r.1 ts
      ⟨rest.requests + 1, rest.reloads + r.2.2, rest.stopped, rest.ui⟩

/-- A tick that neither stops the loop nor reloads: a successful fetch whose
`state` is neither `SUCCESS` nor `FAILURE` (e.g. `PENDING`, `PROGRESS`). -/
def nonTerminal (t : Tick) : Prop :=
  match t with
  | .err => False
  | .ok d => d.state ≠ some "SUCCESS" ∧ d.state ≠ some "FAILURE"

theorem pollTick_nonTerminal {ui : UploadUI} {t : Tick} (h : nonTerminal t) :
    (pollTick ui t).2.1 = false ∧ (pollTick ui t).2.2 = 0 := by
  cases t with
  | err => exact absurd h (by simp [nonTerminal])
  | ok d =>
    obtain ⟨h1, h2⟩ := h
    simp [pollTick, h1, h2]

theorem runPoll_append_nonTerminal (pre : List Tick) (rest : List Tick)
    (hpre : ∀ t ∈ pre, nonTerminal t) (ui : UploadUI) :
    (runPoll ui (pre ++ rest)).requests
        = pre.length + (runPoll (pre.foldl (fun u t => (pollTick u t).1) ui) rest).requests ∧
    (runPoll ui (pre ++ rest)).reloads
        = (runPoll (pre.foldl (fun u t => (pollTick u t).1) ui) rest).reloads ∧
    (runPoll ui (pre ++ rest)).ui
        = (runPoll (pre.foldl (fun u t => (pollTick u t).1) ui) rest).ui := by
  induction pre generalizing ui with
  | nil => simp
  | cons t ts ih =>
    have ht : nonTerminal t := hpre t (by simp)
    have hts : ∀ u ∈ ts, nonTerminal u := fun u hu => hpre u (by simp [hu])
    obtain ⟨hstop, hrl⟩ := @pollTick_nonTerminal ui t ht
    have := ih hts (pollTick ui t).1
    simp only [List.cons_append, runPoll, hstop, Bool.false_eq_true, if_false, hrl,
      List.length_cons, List.foldl_cons, List.append_eq, Nat.add_zero]
    refine ⟨?_, ?_, ?_⟩
    · rw [this.1]; omega
    · rw [this.2.1]
    · exact this.2.2

/-- C2: once a poll response carries `state: SUCCESS` (and no earlier tick was
terminal or errored), the loop processes exactly that tick and stops — no
further progress requests — `Import Complete!` is shown and `loadProducts()`
is called exactly once. -/
theorem c2_poll_success (ui : UploadUI) (pre rest : List Tick) (d : PollResponse)
    (hpre : ∀ t ∈ pre, nonTerminal t) (hd : d.state = some "SUCCESS") :
    (runPoll ui (pre ++ .ok d :: rest)).requests = pre.length + 1 ∧
    (runPoll ui (pre ++ .ok d :: rest)).reloads = 1 ∧
    (runPoll ui (pre ++ .ok d :: rest)).stopped = true ∧
    (runPoll ui (pre ++ .ok d :: rest)).ui.statusText = "Import Complete!" := by
  obtain ⟨hreq, hrl, hui⟩ := runPoll_append_nonTerminal pre (.ok d :: rest) hpre ui
  set u0 := pre.foldl (fun u t => (pollTick u t).1) ui with hu0
  have hstopped : ∀ (p : List Tick) (u : UploadUI),
      (∀ t ∈ p, nonTerminal t) → (runPoll u (p ++ .ok d :: rest)).stopped = true := by
    intro p
    induction p with
    | nil => intro u _; simp [runPoll, pollTick, hd]
    | cons t ts ih =>
      intro u hp
      have ht := @pollTick_nonTerminal u t (hp t (by simp))
      simp only [List.cons_append, runPoll, ht.1, if_false]
      exact ih _ (fun x hx => hp x (by simp [hx]))
  refine ⟨?_, ?_, hstopped pre ui hpre, ?_⟩
  · rw [hreq]; simp [runPoll, pollTick, hd]
  · rw [hrl]; simp [runPoll, pollTick, hd]
  · rw [hui]; simp [runPoll, pollTick, hd]

/-- Witness for C2 at a concrete poll sequence: one `PROGRESS` tick, then a
`SUCCESS` tick, then one further (unprocessed) tick. -/
theorem c2_poll_success_witness :
    (runPoll ⟨"", true, 0, false, some "a.csv"⟩
        ([.ok ⟨some "PROGRESS", some 40, none⟩] ++
          .ok ⟨some "SUCCESS", none, none⟩ :: [.ok ⟨some "SUCCESS", none, none⟩])).requests = 2 ∧
    (runPoll ⟨"", true, 0, false, some "a.csv"⟩
        ([.ok ⟨some "PROGRESS", some 40, none⟩] ++
          .ok ⟨some "SUCCESS", none, none⟩ :: [.ok ⟨some "SUCCESS", none, none⟩])).reloads = 1 := by
  have h := c2_poll_success ⟨"", true, 0, false, some "a.csv"⟩
    [.ok ⟨some "PROGRESS", some 40, none⟩] [.ok ⟨some "SUCCESS", none, none⟩]
    ⟨some "SUCCESS", none, none⟩
    (by intro t ht
        simp only [List.mem_singleton] at ht
        subst ht
        exact ⟨by decide, by decide⟩)
    rfl
  exact ⟨h.1, h.2.1⟩

/-- If every tick before `t` is non-terminal and `t` stops the loop whatever
the UI state, the loop processes exactly `pre.length + 1` ticks and ends in
the state `t` produces. -/
theorem runPoll_first_stop (pre rest : List Tick) (t : Tick) (ui : UploadUI)
    (hpre : ∀ x ∈ pre, nonTerminal x)
    (hstop : ∀ u : UploadUI, (pollTick u t).2.1 = true) :
    (runPoll ui (pre ++ t :: rest)).requests = pre.length + 1 ∧
    (runPoll ui (pre ++ t :: rest)).stopped = true ∧
    (runPoll ui (pre ++ t :: rest)).reloads
        = (pollTick (pre.foldl (fun u x => (pollTick u x).1) ui) t).2.2 ∧
    (runPoll ui (pre ++ t :: rest)).ui
        = (pollTick (pre.foldl (fun u x => (pollTick u x).1) ui) t).1 := by
  obtain ⟨hreq, hrl, hui⟩ := runPoll_append_nonTerminal pre (t :: rest) hpre ui
  set u0 := pre.foldl (fun u x => (pollTick u x).1) ui with hu0
  have hstopped : ∀ (p : List Tick) (u : UploadUI),
      (∀ x ∈ p, nonTerminal x) → (runPoll u (p ++ t :: rest)).stopped = true := by
    intro p
    induction p with
    | nil => intro u _; simp [runPoll, hstop u]
    | cons x xs ih =>
      intro u hp
      have hx := @pollTick_nonTerminal u x (hp x (by simp))
      simp only [List.cons_append, runPoll, hx.1, Bool.false_eq_true, if_false]
      exact ih _ (fun y hy => hp y (by simp [hy]))
  refine ⟨?_, hstopped pre ui hpre, ?_, ?_⟩
  · rw [hreq]; simp [runPoll, hstop u0]
  · rw [hrl]; simp [runPoll, hstop u0]
  · rw [hui]; simp [runPoll, hstop u0]

/-- Counterexample to C3 as stated: a `FAILURE` response whose `status` field
is `"boom"` stops polling, but the shown message is `"Failed: boom"` — it
equals neither the `status` field nor `"Error"`. -/
theorem c3_counterexample :
    (runPoll ⟨"", true, 0, false, some "a.csv"⟩
        [.ok ⟨some "FAILURE", none, some "boom"⟩]).stopped = true ∧
    ¬ ((runPoll ⟨"", true, 0, false, some "a.csv"⟩
          [.ok ⟨some "FAILURE", none, some "boom"⟩]).ui.statusText = "boom" ∨
       (runPoll ⟨"", true, 0, false, some "a.csv"⟩
          [.ok ⟨some "FAILURE", none, some "boom"⟩]).ui.statusText = "Error") := by
  decide

/-- C3 (amended): on the first `FAILURE` response polling stops (no further
requests), and the shown message is `"Failed: "` followed by the response's
`status` field, or `"Failed: Error"` when that field is absent or empty; the
retry affordance is shown. -/
theorem c3_poll_failure (ui : UploadUI) (pre rest : List Tick) (d : PollResponse)
    (hpre : ∀ t ∈ pre, nonTerminal t) (hd : d.state = some "FAILURE") :
    (runPoll ui (pre ++ .ok d :: rest)).requests = pre.length + 1 ∧
    (runPoll ui (pre ++ .ok d :: rest)).stopped = true ∧
    (runPoll ui (pre ++ .ok d :: rest)).ui.statusText
        = "Failed: " ++ jsOrStr d.status "Error" ∧
    (runPoll ui (pre ++ .ok d :: rest)).ui.retryVisible = true := by
  have h := runPoll_first_stop pre rest (.ok d) ui hpre
    (by intro u; simp [pollTick, hd])
  refine ⟨h.1, h.2.1, ?_, ?_⟩
  · rw [h.2.2.2]; simp [pollTick, hd]
  · rw [h.2.2.2]; simp [pollTick, hd]

/-- Witness for the amended C3: a `PROGRESS` tick followed by a `FAILURE`
tick whose `status` is `"bad row"`. -/
theorem c3_poll_failure_witness :
    (runPoll ⟨"", true, 0, false, none⟩
        ([.ok ⟨some "PROGRESS", some 10, none⟩] ++
          .ok ⟨some "FAILURE", none, some "bad row"⟩ :: [])).requests = 2 ∧
    (runPoll ⟨"", true, 0, false, none⟩
        ([.ok ⟨some "PROGRESS", some 10, none⟩] ++
          .ok ⟨some "FAILURE", none, some "bad row"⟩ :: [])).ui.statusText
      = "Failed: bad row" := by
  have h := c3_poll_failure ⟨"", true, 0, false, none⟩
    [.ok ⟨some "PROGRESS", some 10, none⟩] []
    ⟨some "FAILURE", none, some "bad row"⟩
    (by intro t ht
        simp only [List.mem_singleton] at ht
        subst ht
        exact ⟨by decide, by decide⟩)
    rfl
  exact ⟨h.1, by rw [h.2.2.1]; rfl⟩

/-- C4: a transport/parse error on a poll tick stops the loop after exactly
that tick (no further progress requests), shows the generic fetch-error
message, and shows the retry affordance. -/
theorem c4_poll_transport_error (ui : UploadUI) (pre rest : List Tick)
    (hpre : ∀ t ∈ pre, nonTerminal t) :
    (runPoll ui (pre ++ .err :: rest)).requests = pre.length + 1 ∧
    (runPoll ui (pre ++ .err :: rest)).stopped = true ∧
    (runPoll ui (pre ++ .err :: rest)).ui.statusText = "Error fetching progress." ∧
    (runPoll ui (pre ++ .err :: rest)).ui.retryVisible = true := by
  have h := runPoll_first_stop pre rest .err ui hpre (by intro u; simp [pollTick])
  refine ⟨h.1, h.2.1, ?_, ?_⟩
  · rw [h.2.2.2]; simp [pollTick]
  · rw [h.2.2.2]; simp [pollTick]

/-- Witness for C4: two non-terminal ticks, then an errored tick, then a
further (unprocessed) tick. -/
theorem c4_poll_transport_error_witness :
    (runPoll ⟨"", true, 0, false, none⟩
        ([.ok ⟨some "PENDING", none, none⟩, .ok ⟨some "PROGRESS", some 5, none⟩] ++
          .err :: [.ok ⟨some "SUCCESS", none, none⟩])).requests = 3 ∧
    (runPoll ⟨"", true, 0, false, none⟩
        ([.ok ⟨some "PENDING", none, none⟩, .ok ⟨some "PROGRESS", some 5, none⟩] ++
          .err :: [.ok ⟨some "SUCCESS", none, none⟩])).ui.statusText
      = "Error fetching progress." := by
  have h := c4_poll_transport_error ⟨"", true, 0, false, none⟩
    [.ok ⟨some "PENDING", none, none⟩, .ok ⟨some "PROGRESS", some 5, none⟩]
    [.ok ⟨some "SUCCESS", none, none⟩]
    (by intro t ht
        simp only [List.mem_cons, List.mem_singleton, List.not_mem_nil, or_false] at ht
        rcases ht with h1 | h2
        · subst h1; exact ⟨by decide, by decide⟩
        · subst h2; exact ⟨by decide, by decide⟩)
  exact ⟨h.1, h.2.2.1⟩

/-! ## Product save (`saveProduct`) and webhook save (`saveWebhook`) -/

/-- The product form values read by `saveProduct` (all text inputs are
strings; an empty `id` means the create modal). -/
structure ProductForm where
  id : String
  sku : String
  name : String
  description : String
  active : Bool
deriving DecidableEq

/-- A parsed save/delete response body: `status` and `message` may be absent. -/
structure ApiResponse where
  status : Option String
  message : Option String
deriving DecidableEq

/-- What the server interaction yields: a transport/parse error or a body. -/
inductive FetchOutcome where
  | err : FetchOutcome
  | ok : ApiResponse → FetchOutcome
deriving DecidableEq

/-- Effects of one form-submission handler run. -/
structure SaveEffects where
  requests : List Request
  alerts : List String
  modalOpen : Bool
  reloads : Nat
deriving DecidableEq

/-- `saveProduct` from `src/unnamed/part_000` lines 254–289, given the form
values and the outcome of the fetch it would issue.  The modal starts open
(the handler runs on the modal form's submit event).  JS `!product.sku`
is true exactly when the string is empty. -/
def saveProduct (f : ProductForm) (outcome : FetchOutcome) : SaveEffects :=
  if f.sku = "" ∨ f.name = "" then
    { requests := [], alerts := ["SKU and Name are required."], modalOpen := true, reloads := 0 }
  else
    match outcome with
    | .err =>
      { requests := [⟨"POST", "/api/products"⟩]
        alerts := ["Failed to save product."], modalOpen := true, reloads := 0 }
    | .ok d =>
      if d.status = some "success" then
        { requests := [⟨"POST", "/api/products"⟩], alerts := [], modalOpen := false, reloads := 1 }
      else
        { requests := [⟨"POST", "/api/products"⟩]
          alerts := ["Error: " ++ jsOrStr d.message "Failed to save product"]
          modalOpen := true, reloads := 0 }

/-- The webhook form values read by `saveWebhook` (`src/static/webhooks.js`). -/
structure WebhookForm where
  id : String
  url : String
  event_type : String
  enabled : Bool
deriving DecidableEq

/-- `saveWebhook` from `src/static/webhooks.js` lines 76–109, given the form
values and the fetch outcome.  JS `id ? "PUT" : "POST"`: the empty string is
falsy, so a non-empty `id` selects PUT to `/api/webhooks/{id}` and an empty
one POST to `/api/webhooks`. -/
def saveWebhook (f : WebhookForm) (outcome : FetchOutcome) : SaveEffects :=
  let req : Request :=
    if f.id = "" then ⟨"POST", "/api/webhooks"⟩
    else ⟨"PUT", "/api/webhooks/" ++ f.id⟩
  match outcome with
  | .err => { requests := [req], alerts := ["Error"], modalOpen := true, reloads := 0 }
  | .ok d =>
    if d.status = some "success" then
      { requests := [req], alerts := [], modalOpen := false, reloads := 1 }
    else
      { requests := [req], alerts := ["Failed: " ++ (d.message.getD "undefined")]
        modalOpen := true, reloads := 0 }

/-- C5: submitting the product form with an empty `sku` or empty `name`
issues no HTTP request, shows the validation alert, and leaves the modal
open. -/
theorem c5_product_validation (f : ProductForm) (outcome : FetchOutcome)
    (h : f.sku = "" ∨ f.name = "") :
    (saveProduct f outcome).requests = [] ∧
    (saveProduct f outcome).alerts = ["SKU and Name are required."] ∧
    (saveProduct f outcome).modalOpen = true := by
  unfold saveProduct
  rw [if_pos h]
  exact ⟨rfl, rfl, rfl⟩

/-- Witness for C5 at a concrete form with a non-empty sku but empty name. -/
theorem c5_product_validation_witness :
    (saveProduct ⟨"7", "SKU-1", "", "desc", true⟩ .err).requests = [] ∧
    (saveProduct ⟨"7", "SKU-1", "", "desc", true⟩ .err).alerts
      = ["SKU and Name are required."] := by
  have h := c5_product_validation ⟨"7", "SKU-1", "", "desc", true⟩ .err (Or.inr rfl)
  exact ⟨h.1, h.2.1⟩

/-- C6 is about `loadProducts` (`src/unnamed/part_000` line 176): the page
label is built from the server-reported `page` and `total` with the client
constant `perPage = 20`. -/
def perPage : Nat := 20

/-- `Math.ceil(total / perPage)` for a natural `total`. -/
def ceilTotalPages (total : Nat) : Nat := (total + (perPage - 1)) / perPage

/-- The `pageInfo` label set by `loadProducts`:
`Page X of (Math.ceil(total / perPage) || 1)`. -/
def pageInfoLabel (page total : Nat) : String :=
  "Page " ++ toString page ++ " of " ++ toString (jsOrNat (ceilTotalPages total) 1)

/-- C6: the label reads `Page X of Y` with `Y = ceil(total / per_page)`
clamped below by 1; in particular `total = 45` gives `Page 1 of 3` and
`total = 0` gives `Page 1 of 1`. -/
theorem c6_page_label (page total : Nat) :
    pageInfoLabel page total
      = "Page " ++ toString page ++ " of " ++ toString (max (ceilTotalPages total) 1) ∧
    pageInfoLabel 1 45 = "Page 1 of 3" ∧
    pageInfoLabel 1 0 = "Page 1 of 1" := by
  refine ⟨?_, by decide, by decide⟩
  have h : jsOrNat (ceilTotalPages total) 1 = max (ceilTotalPages total) 1 := by
    unfold jsOrNat
    by_cases h0 : ceilTotalPages total = 0
    · simp [h0]
    · rw [if_neg h0]
      omega
  rw [pageInfoLabel, h]

/-- C8: a product save that passes validation always issues `POST
/api/products`, id or no id; a webhook save issues `PUT /api/webhooks/{id}`
when the form id is non-empty and `POST /api/webhooks` when it is empty. -/
theorem c8_save_endpoints (pf : ProductForm) (wf : WebhookForm) (o : FetchOutcome)
    (hsku : pf.sku ≠ "") (hname : pf.name ≠ "") :
    (saveProduct pf o).requests = [⟨"POST", "/api/products"⟩] ∧
    (saveWebhook wf o).requests
      = [if wf.id = "" then ⟨"POST", "/api/webhooks"⟩
         else ⟨"PUT", "/api/webhooks/" ++ wf.id⟩] := by
  constructor
  · unfold saveProduct
    rw [if_neg (by tauto)]
    cases o with
    | err => rfl
    | ok d => by_cases h : d.status = some "success" <;> simp [h]
  · unfold saveWebhook
    cases o with
    | err => rfl
    | ok d => by_cases h : d.status = some "success" <;> simp [h]

/-- Witness for C8: a product update form (non-empty id) still POSTs to
`/api/products`, and a webhook form with id `"5"` PUTs to
`/api/webhooks/5`. -/
theorem c8_save_endpoints_witness :
    (saveProduct ⟨"12", "SKU-1", "Widget", "", true⟩ .err).requests
      = [⟨"POST", "/api/products"⟩] ∧
    (saveWebhook ⟨"5", "http:a", "product.created", true⟩ .err).requests
      = [⟨"PUT", "/api/webhooks/5"⟩] := by
  have h := c8_save_endpoints ⟨"12", "SKU-1", "Widget", "", true⟩
    ⟨"5", "http:a", "product.created", true⟩ .err (by decide) (by decide)
  exact ⟨h.1, by rw [h.2]; rfl⟩

/-! ## Bulk delete (`bulkDeleteProducts`) -/

/-- An observable step of the bulk-delete handler, in the order it happens. -/
inductive Event where
  | confirmPrompt : String → Event
  | setDisabled : Bool → Event
  | setLabel : String → Event
  | request : Request → Event
  | alertShown : String → Event
  | reload : Event
deriving DecidableEq

/-- Response body of `POST /api/products/bulk_delete`. -/
structure BulkResponse where
  status : Option String
  deleted_count : Option Nat
  message : Option String
deriving DecidableEq

/-- Outcome of the bulk-delete fetch: thrown error (with its stringified
form, as JS concatenates `err` into the alert) or a parsed body. -/
inductive BulkOutcome where
  | err : String → BulkOutcome
  | ok : BulkResponse → BulkOutcome
deriving DecidableEq

/-- JS string conversion of a possibly-absent number (`undefined` prints as
the string `undefined` inside a template literal). -/
def jsNumStr (n : Option Nat) : String :=
  match n with
  | none => "undefined"
  | some k => toString k

/-- `bulkDeleteProducts` from `src/unnamed/part_000` lines 318–342 as the
trace of events it performs, given whether the user confirmed and the fetch
outcome.  The `finally` block re-enables the button and restores its label
in every branch. -/
def bulkDeleteProducts (confirmed : Bool) (outcome : BulkOutcome) : List Event :=
  .confirmPrompt "Are you sure? This cannot be undone." ::
  if ¬ confirmed then []
  else
    [.setDisabled true, .setLabel "Deleting...",
     .request ⟨"POST", "/api/products/bulk_delete"⟩] ++
    (match outcome with
     | .err e => [.alertShown ("Error: " ++ e)]
     | .ok d =>
       if d.status = some "success" then
         [.alertShown ("All products deleted (" ++ jsNumStr d.deleted_count ++ ")"),
          .reload]
       else
         [.alertShown ("Failed: " ++ (d.message.getD "undefined"))]) ++
    [.setDisabled false, .setLabel "Delete All Products"]

/-- Is this event a network request? -/
def isRequestEvent (e : Event) : Bool :=
  match e with
  | .request _ => true
  | _ => false

/-- C7: without confirmation the handler issues no request (the trace is the
prompt alone); with confirmation the trace disables and relabels the button,
issues the one request, on success alerts with the deleted count and reloads
once, and in every outcome ends by re-enabling the button and restoring its
original label. -/
theorem c7_bulk_delete (o : BulkOutcome) (n : Nat) (m : Option String) :
    bulkDeleteProducts false o
      = [.confirmPrompt "Are you sure? This cannot be undone."] ∧
    (bulkDeleteProducts false o).filter isRequestEvent = [] ∧
    bulkDeleteProducts true (.ok ⟨some "success", some n, m⟩)
      = [.confirmPrompt "Are you sure? This cannot be undone.",
         .setDisabled true, .setLabel "Deleting...",
         .request ⟨"POST", "/api/products/bulk_delete"⟩,
         .alertShown ("All products deleted (" ++ toString n ++ ")"),
         .reload,
         .setDisabled false, .setLabel "Delete All Products"] ∧
    (∀ r : BulkOutcome,
      (bulkDeleteProducts true r).getLast? = some (.setLabel "Delete All Products") ∧
      Event.setDisabled false ∈ bulkDeleteProducts true r) := by
  refine ⟨rfl, rfl, by simp [bulkDeleteProducts, jsNumStr], ?_⟩
  intro r
  cases r with
  | err e => constructor <;> simp [bulkDeleteProducts]
  | ok d =>
    by_cases h : d.status = some "success" <;>
      (constructor <;> simp [bulkDeleteProducts, h])

/-! ## Upload state machine: `currentFile` and the retry button (C9) -/

/-- The user-driven events of the upload section: a file selection/drop
(`handleFiles` runs on the name of `files[0]`) or a click of the retry
button. -/
inductive UEvent where
  | filesSelected : String → UEvent
  | retryClick : UEvent
deriving DecidableEq

/-- One event against the `currentFile` variable: `handleFiles` assigns it
only after the `.csv` check passes (lines 53–63); the retry handler (lines
46–48) reads it and uploads it when set.  Returns the new `currentFile` and
the names passed to `uploadCSV` during the event. -/
def uStep (cur : Option String) (e : UEvent) : Option String × List String :=
  match e with
  | .filesSelected name =>
    if jsEndsWith name ".csv" then (some name, [name]) else (cur, [])
  | .retryClick =>
    match cur with
    | some f => (cur, [f])
    | none => (cur, [])

/-- Run a sequence of events from an initial `currentFile` (initially
`null`): final `currentFile` plus all uploads performed, in order. -/
def runUpload (cur : Option String) : List UEvent → Option String × List String
  | [] => (cur, [])
  | e :: es =>
    let s := uStep cur e
    let rest := runUpload s.1 es
    (rest.1, s.2 ++ rest.2)

/-- The last file name in the event sequence that passed the `.csv`
validation, if any (validation-time view of `currentFile`). -/
def lastValidated (cur : Option String) : List UEvent → Option String
  | [] => cur
  | e :: es =>
    match e with
    | .filesSelected name =>
      lastValidated (if jsEndsWith name ".csv" then some name else cur) es
    | .retryClick => lastValidated cur es

theorem runUpload_fst_eq_lastValidated (es : List UEvent) (cur : Option String) :
    (runUpload cur es).1 = lastValidated cur es := by
  induction es generalizing cur with
  | nil => rfl
  | cons e es ih =>
    cases e with
    | filesSelected name =>
      by_cases h : jsEndsWith name ".csv" = true <;>
        simp [runUpload, uStep, lastValidated, h, ih]
    | retryClick =>
      cases cur <;> simp [runUpload, uStep, lastValidated, ih]

theorem lastValidated_csv (es : List UEvent) (cur : Option String)
    (hcur : ∀ f, cur = some f → jsEndsWith f ".csv" = true) :
    ∀ f, lastValidated cur es = some f → jsEndsWith f ".csv" = true := by
  induction es generalizing cur with
  | nil => exact hcur
  | cons e es ih =>
    cases e with
    | filesSelected name =>
      by_cases h : jsEndsWith name ".csv" = true
      · simp only [lastValidated, h, if_true]
        exact ih _ (by intro f hf; injection hf with hf; rw [← hf]; exact h)
      · simp only [lastValidated, h, if_false]
        exact ih _ hcur
    | retryClick => exact ih _ hcur

theorem runUpload_append (xs ys : List UEvent) (cur : Option String) :
    (runUpload cur (xs ++ ys)).1 = (runUpload (runUpload cur xs).1 ys).1 ∧
    (runUpload cur (xs ++ ys)).2
      = (runUpload cur xs).2 ++ (runUpload (runUpload cur xs).1 ys).2 := by
  induction xs generalizing cur with
  | nil => simp [runUpload]
  | cons e es ih =>
    have := ih (uStep cur e).1
    simp only [List.cons_append, runUpload, List.append_eq]
    exact ⟨this.1, by rw [this.2, List.append_assoc]⟩

theorem runUpload_uploads_csv (es : List UEvent) (cur : Option String)
    (hcur : ∀ f, cur = some f → jsEndsWith f ".csv" = true) :
    ∀ f ∈ (runUpload cur es).2, jsEndsWith f ".csv" = true := by
  induction es generalizing cur with
  | nil => simp [runUpload]
  | cons e es ih =>
    cases e with
    | filesSelected name =>
      by_cases h : jsEndsWith name ".csv" = true
      · intro f hf
        simp only [runUpload, uStep, h, if_true, List.cons_append, List.nil_append,
          List.mem_cons] at hf
        rcases hf with h1 | h2
        · rw [h1]; exact h
        · exact ih (some name)
            (by intro g hg; injection hg with hg; rw [← hg]; exact h) f h2
      · intro f hf
        simp only [runUpload, uStep, h, Bool.false_eq_true, if_false,
          List.nil_append] at hf
        exact ih cur hcur f hf
    | retryClick =>
      cases hc : cur with
      | none =>
        intro f hf
        simp only [runUpload, uStep, hc, List.nil_append] at hf
        exact ih none (by intro g hg; cases hg) f hf
      | some g =>
        have hg : jsEndsWith g ".csv" = true := hcur g hc
        intro f hf
        simp only [runUpload, uStep, hc, List.cons_append, List.nil_append,
          List.mem_cons] at hf
        rcases hf with h1 | h2
        · rw [h1]; exact hg
        · exact ih (some g) (by intro x hx; injection hx with hx; rw [← hx]; exact hg) f h2

/-- C9: starting from `currentFile = null`, after any event sequence the
tracked `currentFile` equals the last name that passed the `.csv` check and
therefore always ends in `.csv`; every name ever uploaded ends in `.csv`;
and a trailing retry click resubmits exactly the tracked file (or nothing
when none is tracked). -/
theorem c9_current_file_invariant (es : List UEvent) :
    (runUpload none es).1 = lastValidated none es ∧
    (∀ f, (runUpload none es).1 = some f → jsEndsWith f ".csv" = true) ∧
    (∀ f ∈ (runUpload none es).2, jsEndsWith f ".csv" = true) ∧
    (runUpload none (es ++ [.retryClick])).2
      = (runUpload none es).2 ++
        (match (runUpload none es).1 with
         | some f => [f]
         | none => []) := by
  refine ⟨runUpload_fst_eq_lastValidated es none, ?_, ?_, ?_⟩
  · intro f hf
    exact lastValidated_csv es none (by intro g hg; cases hg) f
      (by rw [← runUpload_fst_eq_lastValidated]; exact hf)
  · exact runUpload_uploads_csv es none (by intro g hg; cases hg)
  · rw [(runUpload_append es [.retryClick] none).2]
    cases (runUpload none es).1 <;> simp [runUpload, uStep]

/-- Witness for C9: reject `notes.txt`, accept `data.csv`, then retry — the
uploads are exactly `data.csv` twice and the rejected file is never
uploaded. -/
theorem c9_current_file_invariant_witness :
    (runUpload none [.filesSelected "notes.txt", .filesSelected "data.csv"]).1
      = some "data.csv" ∧
    jsEndsWith "data.csv" ".csv" = true ∧
    (runUpload none ([.filesSelected "notes.txt", .filesSelected "data.csv"]
        ++ [.retryClick])).2 = ["data.csv", "data.csv"] := by
  have h := c9_current_file_invariant [.filesSelected "notes.txt", .filesSelected "data.csv"]
  refine ⟨by decide, ?_, ?_⟩
  · exact h.2.1 "data.csv" (by decide)
  · rw [h.2.2.2]; decide

/-! ## HTML escaping and row rendering (C10) -/

/-- The single-quote character, `'`. -/
def quoteChar : Char := Char.ofNat 39

/-- The replacement the regex callback of `escapeHtml`
(`src/static/webhooks.js` lines 15–18) applies to one character: the five
characters matched by the character class get their entity, every other
character is left as is. -/
def escChar (c : Char) : List Char :=
  if c = '&' then "&amp;".data
  else if c = '<' then "&lt;".data
  else if c = '>' then "&gt;".data
  else if c = '"' then "&quot;".data
  else if c = quoteChar then "&#039;".data
  else [c]

/-- `escapeHtml(text)`: `text.replace(/[&<>"']/g, m => map[m])` — every
occurrence of a matched character is replaced by its entity, character by
character, left to right. -/
def escapeHtml (text : String) : String :=
  ⟨(text.data.map escChar).flatten⟩

/-- A product row as fetched from `/api/products`. -/
structure Product where
  id : Nat
  sku : String
  name : String
  description : String
  active : Bool

/-- A webhook row as fetched from `/api/webhooks`. -/
structure Webhook where
  id : Nat
  url : String
  event_type : String
  enabled : Bool

/-- A quoted JS string argument inside an inline `onclick` attribute. -/
def quoted (s : String) : String :=
  String.singleton quoteChar ++ s ++ String.singleton quoteChar

/-- The cell markup of one row of `renderProductsTable`
(`src/unnamed/part_000` lines 202–211), template-literal whitespace elided:
`sku`, `name` and `description` are interpolated verbatim. -/
def renderProductRow (p : Product) : String :=
  "<td>" ++ p.sku ++
  "</td><td>" ++ p.name ++
  "</td><td>" ++ p.description ++
  "</td><td>" ++ (if p.active then "Yes" else "No") ++
  "</td><td><button class=\"edit-btn\" onclick=\"editProduct(" ++
    toString p.id ++ ", " ++ quoted p.sku ++ ", " ++ quoted p.name ++ ", " ++
    quoted p.description ++ ", " ++ (if p.active then "true" else "false") ++
  ")\">Edit</button><button class=\"delete-btn\" onclick=\"deleteProduct(" ++
    toString p.id ++ ")\">Delete</button></td>"

/-- The cell markup of one row of `loadWebhooks`
(`src/static/webhooks.js` lines 34–43), whitespace elided: `url` and
`event_type` pass through `escapeHtml` at every interpolation point. -/
def renderWebhookRow (w : Webhook) : String :=
  "<td>" ++ escapeHtml w.url ++
  "</td><td>" ++ escapeHtml w.event_type ++
  "</td><td>" ++ (if w.enabled then "Yes" else "No") ++
  "</td><td><button class=\"action-btn edit-btn\" onclick=\"editWebhook(" ++
    toString w.id ++ ", " ++ quoted (escapeHtml w.url) ++ ", " ++
    quoted (escapeHtml w.event_type) ++ ", " ++
    (if w.enabled then "true" else "false") ++
  ")\">Edit</button><button class=\"action-btn delete-btn\" onclick=\"deleteWebhook(" ++
    toString w.id ++
  ")\">Delete</button><button class=\"action-btn test-btn\" onclick=\"testWebhook(" ++
    toString w.id ++ ", this)\">Test</button></td>"

theorem string_mk_append (a b : List Char) :
    String.mk (a ++ b) = String.mk a ++ String.mk b := rfl

theorem escapeHtml_append (s t : String) :
    escapeHtml (s ++ t) = escapeHtml s ++ escapeHtml t := by
  unfold escapeHtml
  rw [show (s ++ t).data = s.data ++ t.data from String.data_append s t,
    List.map_append, List.flatten_append, string_mk_append]

theorem escapeHtml_singleton (c : Char) :
    escapeHtml (String.singleton c) = String.mk (escChar c) := by
  show String.mk (([c].map escChar).flatten) = String.mk (escChar c)
  simp

/-- The markup of a webhook row after its first two (escaped) cells. -/
def webhookRowTail (w : Webhook) : String :=
  "</td><td>" ++ (if w.enabled then "Yes" else "No") ++
  "</td><td><button class=\"action-btn edit-btn\" onclick=\"editWebhook(" ++
    toString w.id ++ ", " ++ quoted (escapeHtml w.url) ++ ", " ++
    quoted (escapeHtml w.event_type) ++ ", " ++
    (if w.enabled then "true" else "false") ++
  ")\">Edit</button><button class=\"action-btn delete-btn\" onclick=\"deleteWebhook(" ++
    toString w.id ++
  ")\">Delete</button><button class=\"action-btn test-btn\" onclick=\"testWebhook(" ++
    toString w.id ++ ", this)\">Test</button></td>"

/-- The markup of a product row after its first three (verbatim) cells. -/
def productRowTail (p : Product) : String :=
  "</td><td>" ++ (if p.active then "Yes" else "No") ++
  "</td><td><button class=\"edit-btn\" onclick=\"editProduct(" ++
    toString p.id ++ ", " ++ quoted p.sku ++ ", " ++ quoted p.name ++ ", " ++
    quoted p.description ++ ", " ++ (if p.active then "true" else "false") ++
  ")\">Edit</button><button class=\"delete-btn\" onclick=\"deleteProduct(" ++
    toString p.id ++ ")\">Delete</button></td>"

/-- C10: `escapeHtml` rewrites a string occurrence by occurrence — it
distributes over concatenation, sends each of the five special characters to
its entity, and fixes every other single character; the webhook row
interpolates `escapeHtml` of `url` and `event_type`, while the product row
interpolates `sku`, `name` and `description` verbatim. -/
theorem c10_escape_and_rendering (s t : String) (c : Char) (w : Webhook) (p : Product)
    (hc : c ≠ '&' ∧ c ≠ '<' ∧ c ≠ '>' ∧ c ≠ '"' ∧ c ≠ quoteChar) :
    escapeHtml (s ++ t) = escapeHtml s ++ escapeHtml t ∧
    escapeHtml "&" = "&amp;" ∧
    escapeHtml "<" = "&lt;" ∧
    escapeHtml ">" = "&gt;" ∧
    escapeHtml "\"" = "&quot;" ∧
    escapeHtml (String.singleton quoteChar) = "&#039;" ∧
    escapeHtml (String.singleton c) = String.singleton c ∧
    renderWebhookRow w
      = "<td>" ++ escapeHtml w.url ++
        "</td><td>" ++ escapeHtml w.event_type ++ webhookRowTail w ∧
    renderProductRow p
      = "<td>" ++ p.sku ++ "</td><td>" ++ p.name ++
        "</td><td>" ++ p.description ++ productRowTail p := by
  obtain ⟨h1, h2, h3, h4, h5⟩ := hc
  refine ⟨escapeHtml_append s t, by decide, by decide, by decide, by decide, by decide,
    ?_, ?_, ?_⟩
  · rw [escapeHtml_singleton]
    unfold escChar
    rw [if_neg h1, if_neg h2, if_neg h3, if_neg h4, if_neg h5]
    rfl
  · unfold renderWebhookRow webhookRowTail
    simp [String.append_assoc]
  · unfold renderProductRow productRowTail
    simp [String.append_assoc]

/-- Witness for C10: concrete strings and rows — `a&b` escapes to
`a&amp;b`, the character `x` is untouched, and a product row with a markup
payload in `description` carries it verbatim. -/
theorem c10_escape_and_rendering_witness :
    escapeHtml ("a&" ++ "b") = escapeHtml "a&" ++ escapeHtml "b" ∧
    escapeHtml "&" = "&amp;" ∧
    escapeHtml (String.singleton 'x') = String.singleton 'x' ∧
    renderProductRow ⟨3, "S", "N", "<b>hi</b>", true⟩
      = "<td>" ++ "S" ++ "</td><td>" ++ "N" ++ "</td><td>" ++ "<b>hi</b>" ++
        productRowTail ⟨3, "S", "N", "<b>hi</b>", true⟩ := by
  have h := c10_escape_and_rendering "a&" "b" 'x'
    ⟨1, "u", "e", true⟩ ⟨3, "S", "N", "<b>hi</b>", true⟩
    ⟨by decide, by decide, by decide, by decide, by decide⟩
  exact ⟨h.1, h.2.1, h.2.2.2.2.2.2.1, h.2.2.2.2.2.2.2.2⟩

end ProductImporter
